import Mathlib

/-!
Verification development for the browser workflow automation layer of the
ChatGPT-Micro-Cap-Experiment repository.  The Python modules under
`scripts/browser/` are shallowly embedded: Python dicts become association
lists of `PyVal`, exceptions become an explicit `Except` with a distinguished
`ValueError` constructor (the processor catches `ValueError` separately from
the blanket `except Exception`), and every effectful call a step makes is an
explicit field of an environment record.
-/

/-- Model of the Python values that flow through the workflow layer:
strings, ints, bools, `None`, lists and string-keyed dicts (the JSON
fragment the workflow engine actually manipulates). -/
inductive PyVal : Type where
  | pstr (s : String)
  | pint (n : Int)
  | pbool (b : Bool)
  | pnone
  | plist (vs : List PyVal)
  | pdict (es : List (String × PyVal))
deriving Repr

mutual

/-- Python `repr`, restricted to the embedded values (string escaping inside
`repr` of a string is not modelled; none of the values the claims touch
contain quote characters). -/
def pyRepr : PyVal → String
  | .pstr s => "\x27" ++ s ++ "\x27"
  | .pint n => toString n
  | .pbool b => if b then "True" else "False"
  | .pnone => "None"
  | .plist vs => "[" ++ pyReprList vs ++ "]"
  | .pdict es => "\x7b" ++ pyReprEntries es ++ "\x7d"

/-- Comma-separated `repr` of the elements of a Python list. -/
def pyReprList : List PyVal → String
  | [] => ""
  | [v] => pyRepr v
  | v :: vs => pyRepr v ++ ", " ++ pyReprList vs

/-- Comma-separated `repr` of the key/value pairs of a Python dict. -/
def pyReprEntries : List (String × PyVal) → String
  | [] => ""
  | [(k, v)] => "\x27" ++ k ++ "\x27: " ++ pyRepr v
  | (k, v) :: es => "\x27" ++ k ++ "\x27: " ++ pyRepr v ++ ", " ++ pyReprEntries es

end

/-- Python `str`: identity on strings, `repr` on everything else. -/
def pyStr : PyVal → String
  | .pstr s => s
  | v => pyRepr v

/-- Python truthiness for the embedded values. -/
def pyTruthy : PyVal → Bool
  | .pstr s => s != ""
  | .pint n => n != 0
  | .pbool b => b
  | .pnone => false
  | .plist vs => !vs.isEmpty
  | .pdict es => !es.isEmpty

/-- A Python dict with string keys, as an association list; the first
matching entry wins on lookup. -/
abbrev Dict : Type := List (String × PyVal)

/-- `d.get(k)`: `Some` the stored value, `none` when the key is absent. -/
def dget (d : Dict) (k : String) : Option PyVal :=
  (d.find? (fun p => p.1 = k)).map (fun p => p.2)

/-- `d.get(k, default)`. -/
def dgetD (d : Dict) (k : String) (default : PyVal) : PyVal :=
  (dget d k).getD default

/-- `d[k] = v`: the new binding shadows any previous one. -/
def dinsert (d : Dict) (k : String) (v : PyVal) : Dict :=
  (k, v) :: d

/-- `d.update(r)`: every binding of `r` overrides the corresponding key of `d`. -/
def dupdate (d : Dict) (r : Dict) : Dict :=
  r.foldl (fun acc p => dinsert acc p.1 p.2) d

/-- The dict comprehension `{k: v for k, v in step.items() if k not in keys}`. -/
def ddrop (d : Dict) (keys : List String) : Dict :=
  d.filter (fun p => ¬ keys.contains p.1)

/-- Whether a value is a Python mapping (`isinstance(x, dict)`). -/
def PyVal.isDict : PyVal → Bool
  | .pdict _ => true
  | _ => false

/-- `ScriptExecutor._extract_value` (scripts/browser/core/script_executor.py):
unwrap pydoll's nested response envelope into a string. -/
def ScriptExecutor.extract_value (response : PyVal) : String :=
  match response with
  | .pdict es =>
    let result := dgetD es "result" (.pdict [])
    match result with
    | .pdict inner =>
      let inner_result := dgetD inner "result" (.pdict [])
      match inner_result with
      | .pdict innermost => pyStr (dgetD innermost "value" (.pstr ""))
      | _ => pyStr result
    | _ => pyStr result
  | _ => pyStr response

/-- A Python exception, with `ValueError` distinguished because
`WorkflowProcessor.execute_step` catches it separately from the blanket
`except Exception`. -/
inductive PyExc : Type where
  | valueError (msg : String)
  | otherError (msg : String)
deriving Repr, DecidableEq

/-- `str(e)` for a raised exception. -/
def PyExc.msg : PyExc → String
  | .valueError m => m
  | .otherError m => m

/-- An action handler: receives the keyword parameters and either returns a
result dict or raises.  The remote tab is part of the handler's closure. -/
abbrev Handler : Type := Dict → Except PyExc Dict

/-- The dispatch table `ActionRegistry._actions`. -/
abbrev Registry : Type := List (String × Handler)

/-- `ActionRegistry.register(name, aliases)` applied to `func`: installs the
handler under `name` and then under each alias, later bindings shadowing
earlier ones exactly as dict assignment does
(scripts/browser/actions/registry.py). -/
def ActionRegistry.register (reg : Registry) (name : String) (aliases : List String)
    (func : Handler) : Registry :=
  aliases.foldl (fun r a => (a, func) :: r) ((name, func) :: reg)

/-- Lookup in the dispatch table.  `execute` receives the step's raw `type`
value; a dict key (always a string here) matches it only when the value is
that string. -/
def ActionRegistry.lookup (reg : Registry) (name : PyVal) : Option Handler :=
  match name with
  | .pstr s => (reg.find? (fun p => p.1 = s)).map (fun p => p.2)
  | _ => none

/-- `ActionRegistry.execute(name, tab, **kwargs)`: raises
`ValueError(f"Unknown action: \x7bname\x7d")` when the name is unregistered,
otherwise runs the handler. -/
def ActionRegistry.execute (reg : Registry) (name : PyVal) (kwargs : Dict) :
    Except PyExc Dict :=
  match ActionRegistry.lookup reg name with
  | none => .error (.valueError ("Unknown action: " ++ pyStr name))
  | some f => f kwargs

/-- The processor's call sites `ActionRegistry.execute(name, tab,
**action_params)` (scripts/browser/workflow/processor.py lines 129-163).
The registry's `execute` declares `kwargs` as a plain positional parameter —
`async def execute(cls, name: str, tab, kwargs)` — so Python binds the
unpacked keywords against that signature before the body runs: a key named
`name` or `tab` collides with an already-bound parameter, any other key
except `kwargs` is an unexpected keyword argument, and with no `kwargs` key
the positional parameter is missing; each such case raises `TypeError` at
the call, so the body's `ValueError` is never reached from these call
sites.  Only a parameter map consisting of exactly the key `kwargs` binds,
and the registry body then runs with that entry's value as its `kwargs`
argument (a mapping's entries reach the stored handler; a non-mapping bound
value is indistinguishable through the built-in handlers, which are all
declared `(tab, **kwargs)` and reject the body's positional argument with
`TypeError` whatever it is).  Message text follows CPython's wording, which
names the first offending key in mapping order. -/
def ActionRegistry.executeUnpacked (reg : Registry) (name : PyVal)
    (action_params : Dict) : Except PyExc Dict :=
  match action_params.find? (fun p => p.1 != "kwargs") with
  | some p =>
    if p.1 == "name" || p.1 == "tab" then
      .error (.otherError
        ("TypeError: execute() got multiple values for argument \x27" ++ p.1 ++ "\x27"))
    else
      .error (.otherError
        ("TypeError: execute() got an unexpected keyword argument \x27" ++ p.1 ++ "\x27"))
  | none =>
    match dget action_params "kwargs" with
    | none =>
      .error (.otherError
        "TypeError: execute() missing 1 required positional argument: \x27kwargs\x27")
    | some (.pdict es) => ActionRegistry.execute reg name es
    | some _ => ActionRegistry.execute reg name []

/-- Python's substring containment `sub in s`. -/
def pyIn (sub s : String) : Bool :=
  decide (List.IsInfix sub.toList s.toList)

/-- Python's `s.lower()`, character-wise (the strings the code lowercases are
ASCII or kana, on which ASCII lowercasing agrees with Python). -/
def pyLower (s : String) : String :=
  String.mk (s.data.map Char.toLower)

/-- Python's `value == "literal"` (and list membership against string
literals): true only when the value is exactly that string. -/
def pyEqStr : PyVal → String → Bool
  | .pstr s, t => s == t
  | _, _ => false

/-- The three authentication-handler instances of
`WorkflowProcessor.__init__`. -/
inductive AuthKind : Type where
  | chatgpt
  | zscaler
  | generic
deriving Repr, DecidableEq

/-- `WorkflowProcessor._get_auth_handler(url)`: substring dispatch over the
step's URL. -/
def WorkflowProcessor.get_auth_handler (url : String) : AuthKind :=
  if pyIn "chatgpt" url || pyIn "openai" url then .chatgpt
  else if pyIn "zscaler" url then .zscaler
  else .generic

/-- A value used on the left of a Python string containment must itself be a
string; anything else raises `TypeError`. -/
def asPyString : PyVal → Except PyExc String
  | .pstr s => .ok s
  | v => .error (.otherError ("TypeError: " ++ pyStr v))

/-- The effectful operations one `execute_step` call can perform, with their
outcomes.  Each field models one call site on the remote tab or the auth
handlers; an `Except.error` models a raised exception. -/
structure StepEnv : Type where
  /-- `tab.go_to(step["url"])` -/
  navGoTo : PyVal → Except PyExc Unit
  /-- `ScriptExecutor.get_url(tab)` after the initial navigation -/
  currentUrl : Except PyExc String
  /-- `ChatGPTSiteHandler.handle_zscaler_redirect(tab, current_url)` -/
  zscalerRedirect : String → Except PyExc Bool
  /-- `tab.find(class_name="error-code", timeout=1, raise_exc=False)`:
  whether an element was found -/
  findZscalerMarker : Except PyExc Bool
  /-- `ZscalerAuthHandler.wait_for_auth(tab, 300)`; that loop has no explicit
  timeout return, so `false` stands for any falsy outcome including `None` -/
  zscalerAuth : Except PyExc Bool
  /-- `ChatGPTAuthHandler.wait_for_login(tab, timeout)` -/
  chatgptLogin : PyVal → Except PyExc Bool
  /-- `AuthHandler.wait_for_manual_login(tab, timeout, check, name)` -/
  manualLogin : PyVal → PyVal → PyVal → Except PyExc Bool
  /-- `tab.go_to(step["target_url"])` -/
  targetGoTo : PyVal → Except PyExc Unit

/-- The `step_result` dict as initialised at the top of
`WorkflowProcessor.execute_step`. -/
def stepResultBase (idx : Nat) (step : Dict) : Dict :=
  [("name", dgetD step "name" (.pstr ("Step " ++ toString idx))),
   ("type", dgetD step "type" (.pstr "navigate")),
   ("success", .pbool false)]

/-- The body of the `try:` block of `WorkflowProcessor.execute_step`
(scripts/browser/workflow/processor.py): `.ok` is a `return step_result`
(early or at the end of the block), `.error` a raised exception.  At every
raise point the mutable `step_result` still equals `base`, so early returns
are expressed as inserts into `base`.  Dispatch goes through
`ActionRegistry.executeUnpacked`, the model of the `**action_params` call
sites. -/
def WorkflowProcessor.execute_step_body (reg : Registry) (env : StepEnv)
    (output_dir : PyVal) (step : Dict) (base : Dict) : Except PyExc Dict := do
  -- Handle navigation
  if pyTruthy (dgetD step "url" .pnone) then
    env.navGoTo (dgetD step "url" .pnone)
    let current_url ← env.currentUrl
    -- Handle Zscaler redirect for ChatGPT
    if pyIn "chat.openai.com/?_sm_nck=1" current_url then
      let _ ← env.zscalerRedirect current_url
    -- Check for Zscaler error
    let zscaler_marker ← env.findZscalerMarker
    if zscaler_marker then
      let ok ← env.zscalerAuth
      if !ok then
        return dinsert base "error" (.pstr "Zscaler auth failed")
  -- Handle login if needed
  if pyTruthy (dgetD step "wait_login" .pnone) then
    let url ← asPyString (dgetD step "url" (.pstr ""))
    let login_success ←
      match WorkflowProcessor.get_auth_handler url with
      | .chatgpt => env.chatgptLogin (dgetD step "login_timeout" (.pint 300))
      | _ => (env.manualLogin (dgetD step "login_timeout" (.pint 300))
          (dgetD step "login_check" .pnone) (dgetD step "name" (.pstr "")))
    if !login_success then
      return dinsert base "error" (.pstr "Login timeout")
  -- Navigate to target
  if pyTruthy (dgetD step "target_url" .pnone) then
    env.targetGoTo (dgetD step "target_url" .pnone)
  -- Execute action
  let action_type := dgetD step "type" (.pstr "navigate")
  if pyEqStr action_type "navigate" then
    return dinsert base "success" (.pbool true)
  else if pyEqStr action_type "input" then
    let action_params := ddrop step ["name", "type"]
    let r1 ← ActionRegistry.executeUnpacked reg (.pstr "input") action_params
    let r2 ←
      if pyTruthy (dgetD r1 "success" .pnone) &&
          pyTruthy (dgetD step "submit_button" .pnone) then
        ActionRegistry.executeUnpacked reg (.pstr "click") action_params
      else pure r1
    let r3 ←
      if pyTruthy (dgetD r2 "success" .pnone) &&
          pyTruthy (dgetD step "wait_for_selector" .pnone) then
        ActionRegistry.executeUnpacked reg (.pstr "wait_response") action_params
      else pure r2
    let with_success := dinsert base "success" (dgetD r3 "success" (.pbool false))
    if !pyTruthy (dgetD r3 "success" .pnone) then
      return dinsert with_success "error" (dgetD r3 "error" .pnone)
    else
      return with_success
  else if pyEqStr action_type "download" || pyEqStr action_type "extract" then
    let action_params := dinsert (ddrop step ["name", "type"]) "output_dir" output_dir
    let r ← ActionRegistry.executeUnpacked reg action_type action_params
    return dupdate base r
  else
    let action_params := dinsert (ddrop step ["name", "type"]) "output_dir" output_dir
    match ActionRegistry.executeUnpacked reg action_type action_params with
    | .ok r => return dupdate base r
    | .error (.valueError _) => return dinsert base "success" (.pbool true)
    | .error e => throw e

/-- `WorkflowProcessor.execute_step`: the `try/except Exception` wrapper
around the body; a raised exception is converted into
`step_result["error"] = str(e)` on the (still unmodified) base result. -/
def WorkflowProcessor.execute_step (reg : Registry) (env : StepEnv)
    (output_dir : PyVal) (idx : Nat) (step : Dict) : Dict :=
  let base := stepResultBase idx step
  match WorkflowProcessor.execute_step_body reg env output_dir step base with
  | .ok r => r
  | .error e => dinsert base "error" (.pstr e.msg)

/-- The step loop of `WorkflowProcessor.execute`: run the steps in order,
append each produced result, and break right after the first result whose
`success` is falsy.  `stepExec` is `execute_step` applied to the enumerate
index and the step (the evolving browser state is part of `stepExec`). -/
def runSteps (stepExec : Nat → Dict → Dict) : Nat → List Dict → List Dict
  | _, [] => []
  | idx, s :: rest =>
    if pyTruthy (dgetD (stepExec idx s) "success" (.pbool false)) then
      stepExec idx s :: runSteps stepExec (idx + 1) rest
    else
      [stepExec idx s]

/-- The aggregate result dict of `WorkflowProcessor.execute`:
`{"success": bool, "steps": [...]}`. -/
structure WorkflowResult : Type where
  success : Bool
  steps : List Dict
deriving Repr

/-- `WorkflowProcessor.execute(workflow)`: run the step loop, then set
`result["success"] = all(s.get("success", False) for s in result["steps"])`. -/
def WorkflowProcessor.execute (stepExec : Nat → Dict → Dict)
    (workflow : List Dict) : WorkflowResult :=
  let steps := runSteps stepExec 0 workflow
  { success := steps.all (fun s => pyTruthy (dgetD s "success" (.pbool false))),
    steps := steps }

/-- `parse_bool` (scripts/browser_advanced_workflow.py). -/
def parse_bool (x : String) : Bool :=
  ["1", "true", "yes", "on"].contains (pyLower x)

/-- The body of `main()` in scripts/browser_advanced_workflow.py.  `setup`
is the outcome of `process_advanced_workflow` up to the processor call
(workflow JSON parsing and output-directory creation, either of which may
raise); a parsed workflow is then executed and the exit status is 0 when the
aggregate `success` is truthy, 1 on a falsy aggregate or on any escaped
exception. -/
def mainExitCode (setup : Except PyExc (List Dict))
    (stepExec : Nat → Dict → Dict) : Nat :=
  match setup with
  | .error _ => 1
  | .ok workflow =>
    if (WorkflowProcessor.execute stepExec workflow).success then 0 else 1

/-- The registration performed when scripts/browser/actions/common.py is
imported: `input` (aliases `type`, `fill`), `click` (alias `press`),
`wait_response`, `download`, `extract` (alias `scrape`), in module order.
The handler bodies are parameters: their effects live in the environment. -/
def commonRegistry (hInput hClick hWaitResponse hDownload hExtract : Handler) :
    Registry :=
  ActionRegistry.register
    (ActionRegistry.register
      (ActionRegistry.register
        (ActionRegistry.register
          (ActionRegistry.register [] "input" ["type", "fill"] hInput)
          "click" ["press"] hClick)
        "wait_response" [] hWaitResponse)
      "download" [] hDownload)
    "extract" ["scrape"] hExtract

/-- What one polling iteration of `AuthHandler.wait_for_manual_login` can
observe: the current URL, element presence for the check selector, and the
visible page text; `Except.error` models an exception raised by the
corresponding remote evaluation (swallowed by the loop). -/
structure LoginObs : Type where
  url : Except PyExc String
  elemPresent : PyVal → Except PyExc Bool
  pageText : Except PyExc String

/-- The login-page URL markers of `wait_for_manual_login`. -/
def loginIndicators : List String :=
  ["login", "log-in", "auth", "signin", "sign-in"]

/-- The multilingual post-login keywords of `wait_for_manual_login`. -/
def postLoginIndicators : List String :=
  ["logout", "sign out", "dashboard", "welcome", "ログアウト", "マイページ"]

/-- One iteration of the `while` body of `wait_for_manual_login`
(scripts/browser/auth/handlers.py): `.ok true` is a `return True`,
`.ok false` falls through to the 2-second sleep, and `.error` is the
exception the `except` clause swallows. -/
def manualLoginIter (o : LoginObs) (initial_url : String) (check_element : PyVal) :
    Except PyExc Bool := do
  let current_url ← o.url
  -- Check if URL changed from login page
  if current_url != initial_url then
    let is_login_page := loginIndicators.any (fun ind => pyIn ind (pyLower current_url))
    if !is_login_page then
      return true
  -- Check for specific element
  if pyTruthy check_element then
    if (← o.elemPresent check_element) then
      return true
  -- Check for common post-login indicators
  let page_content ← o.pageText
  if postLoginIndicators.any (fun ind => pyIn ind (pyLower page_content)) then
    return true
  return false

/-- The polling loop of `wait_for_manual_login`, discretised: iteration `k`
runs when `2 * k < timeout` (the guard `time.time() - start_time <
timeout_seconds`, with the 2-second sleep ending each iteration and remote
round-trip latency ignored).  An iteration that raises is swallowed and
polling continues.  The extra `fuel` argument only makes the recursion
structural: the guard exits the loop at `k = ⌈timeout / 2⌉`, so any fuel of
at least `timeout` iterations never runs out before the guard does. -/
def manualLoginLoop (obs : Nat → LoginObs) (initial_url : String)
    (check_element : PyVal) (timeout : Nat) : Nat → Nat → Bool
  | _, 0 => false
  | k, fuel + 1 =>
    if 2 * k < timeout then
      match manualLoginIter (obs k) initial_url check_element with
      | .ok true => true
      | _ => manualLoginLoop obs initial_url check_element timeout (k + 1) fuel
    else
      false

/-- `AuthHandler.wait_for_manual_login`: record the URL at call time
(supplied here as `initial_url`), then poll every 2 seconds until a success
condition or the timeout. -/
def wait_for_manual_login (obs : Nat → LoginObs) (initial_url : String)
    (timeout_seconds : Nat) (check_element : PyVal) : Bool :=
  manualLoginLoop obs initial_url check_element timeout_seconds 0 timeout_seconds

/-- An abstract handle to a located DOM element. -/
abbrev Elem : Type := Nat

/-- The effectful operations `input_text` performs, with their outcomes;
the two `find` fields are the results of its two fixed element probes. -/
structure InputEnv : Type where
  /-- `tab.find(class_name='ProseMirror', timeout=5, raise_exc=False)` -/
  findProseMirror : Option Elem
  /-- `tab.find(id='prompt-textarea', timeout=5, raise_exc=False)` -/
  findPromptTextarea : Option Elem
  /-- `input_field.click()` on the located element -/
  clickField : Elem → Except PyExc Unit
  /-- the select-all-and-delete clearing script -/
  clearScript : Except PyExc String
  /-- `input_field.type_text(text)` -/
  typeText : Elem → PyVal → Except PyExc Unit
  /-- the synthetic input/change event dispatch script -/
  dispatchEvents : Except PyExc String

/-- The element `input_text` operates on: the first probe that succeeds
(class `ProseMirror`, then id `prompt-textarea`).  The caller-supplied
selector (`input_selector`, falling back to `selector`) is bound and echoed
to stderr but never queried. -/
def locatedInputField (env : InputEnv) (kwargs : Dict) : Option Elem :=
  let _selector := (dget kwargs "input_selector").getD (dgetD kwargs "selector" .pnone)
  match env.findProseMirror with
  | some e => some e
  | none => env.findPromptTextarea

/-- `input_text` (scripts/browser/actions/common.py): locate the field by
the two fixed probes, fail with `"Input field not found"` when neither
matches, otherwise click it, optionally clear it, type the text and dispatch
synthetic events; exceptions propagate to the step boundary. -/
def input_text (env : InputEnv) (kwargs : Dict) : Except PyExc Dict := do
  let text := (dget kwargs "input_text").getD (dgetD kwargs "text" (.pstr ""))
  let clear_first := (dget kwargs "clear_first").getD (.pbool true)
  match locatedInputField env kwargs with
  | none => return [("success", .pbool false), ("error", .pstr "Input field not found")]
  | some input_field =>
    env.clickField input_field
    if pyTruthy clear_first then
      let _ ← env.clearScript
    env.typeText input_field text
    let _ ← env.dispatchEvents
    return [("success", .pbool true)]

/-- The nested lookup `result.result.value` of a response, when every hop is
present: the response's `result` key, that mapping's `result` key, that
mapping's `value` key. -/
def nestedResultValue (response : PyVal) : Option PyVal :=
  match response with
  | .pdict es =>
    match dget es "result" with
    | some (.pdict inner) =>
      match dget inner "result" with
      | some (.pdict innermost) => dget innermost "value"
      | _ => none
    | _ => none
  | _ => none

/-- The normalization exactly as the spec's sentence words it, for comparison
with `ScriptExecutor.extract_value`: stringify a non-mapping directly;
otherwise take the string at `result.result.value` if that nested path is
present, else stringify the `result` field, else stringify the original
response. -/
def specExtractValue (response : PyVal) : String :=
  match response with
  | .pdict es =>
    (match nestedResultValue response with
     | some v => pyStr v
     | none =>
       match dget es "result" with
       | some r => pyStr r
       | none => pyStr response)
  | _ => pyStr response

/-- A handler that reports success, used to instantiate registry theorems at
concrete inputs. -/
def okHandler : Handler := fun _ => .ok [("success", .pbool true)]

/-- A step environment where every remote operation succeeds trivially; used
to instantiate processor theorems at concrete inputs. -/
def pureStepEnv : StepEnv where
  navGoTo := fun _ => .ok ()
  currentUrl := .ok "https://example.com"
  zscalerRedirect := fun _ => .ok false
  findZscalerMarker := .ok false
  zscalerAuth := .ok true
  chatgptLogin := fun _ => .ok true
  manualLogin := fun _ _ _ => .ok true
  targetGoTo := fun _ => .ok ()

/-- A step environment whose initial navigation raises. -/
def raisingStepEnv : StepEnv :=
  { pureStepEnv with navGoTo := fun _ => .error (.otherError "boom") }

/-- A two-step all-navigate workflow for concrete instantiations. -/
def wfTwoNav : List Dict :=
  [[("type", PyVal.pstr "navigate")], [("type", PyVal.pstr "navigate")]]

/-- A step executor that fails every step. -/
def stepExecFailAll : Nat → Dict → Dict := fun _ _ => [("success", .pbool false)]

/-- A step executor that marks every step successful. -/
def stepExecOkAll : Nat → Dict → Dict := fun _ _ => [("success", .pbool true)]

/-- A step executor that fails exactly at step index 1. -/
def stepExecFailAt1 : Nat → Dict → Dict := fun idx _ =>
  if idx = 1 then [("success", .pbool false)] else [("success", .pbool true)]

/-- Constant observations for the manual-login waiter: the URL never moves
off the login page, no element is ever present, but the visible page text
contains the post-login keyword `logout`. -/
def obsLogout : Nat → LoginObs := fun _ =>
  { url := .ok "https://example.com/login",
    elemPresent := fun _ => .ok false,
    pageText := .ok "logout" }

/-- Constant observations for the manual-login waiter under which no success
condition at all ever appears. -/
def obsNever : Nat → LoginObs := fun _ =>
  { url := .ok "https://example.com/login",
    elemPresent := fun _ => .ok false,
    pageText := .ok "" }

/-- A concrete input-action environment: the `ProseMirror` probe finds an
element. -/
def pureInputEnv : InputEnv where
  findProseMirror := some 0
  findPromptTextarea := none
  clickField := fun _ => .ok ()
  clearScript := .ok ""
  typeText := fun _ _ => .ok ()
  dispatchEvents := .ok ""

/-- Concrete fill-field parameters specifying the field by `input_selector`. -/
def kwargsSelA : Dict := [("input_selector", .pstr "#a"), ("input_text", .pstr "hi")]

/-- The same fill-field parameters except that the field is specified by a
different `selector`. -/
def kwargsSelB : Dict := [("selector", .pstr "#b"), ("input_text", .pstr "hi")]

/-- Case description of `extract_value` on a mapping, used by several claims
about the bridge normalization. -/
theorem extract_value_pdict (es : List (String × PyVal)) :
    ScriptExecutor.extract_value (.pdict es) =
      match dgetD es "result" (.pdict []) with
      | .pdict inner =>
        (match dgetD inner "result" (.pdict []) with
         | .pdict innermost => pyStr (dgetD innermost "value" (.pstr ""))
         | _ => pyStr (.pdict inner))
      | r => pyStr r := by
  cases h : dgetD es "result" (.pdict []) <;>
    simp [ScriptExecutor.extract_value, h]

/-- Claim C3, counterexample: on the empty mapping the bridge returns the
empty string (it descends through defaulted empty mappings to a defaulted
empty `value`), while the claim's fallback clause demands the stringification
of the original response. -/
theorem claim3_counterexample :
    ScriptExecutor.extract_value (.pdict []) = "" ∧
    specExtractValue (.pdict []) = "\x7b\x7d" ∧
    ScriptExecutor.extract_value (.pdict []) ≠ specExtractValue (.pdict []) := by
  refine ⟨rfl, rfl, ?_⟩
  decide

/-- Claim C3 as amended: the normalization stringifies a non-mapping
directly; when the nested `result.result.value` path is fully present it
returns the string at that path; when the `result` field is present but not
a mapping it stringifies that field.  However, when `result` is a mapping
the code always takes the doubly-nested branch with defaults — if
`result.result` (defaulting to an empty mapping) is a mapping it returns the
stringification of its `value` entry defaulting to the empty string, and it
stringifies the `result` field only when `result.result` is present and not
a mapping; when the top-level `result` key is absent entirely it returns the
empty string, not the stringification of the original response. -/
theorem claim3_amended (response : PyVal) :
    (response.isDict = false → ScriptExecutor.extract_value response = pyStr response) ∧
    (∀ v, nestedResultValue response = some v →
      ScriptExecutor.extract_value response = pyStr v) ∧
    (∀ es r, response = .pdict es → dget es "result" = some r → r.isDict = false →
      ScriptExecutor.extract_value response = pyStr r) ∧
    (∀ es inner innermost, response = .pdict es → dget es "result" = some (.pdict inner) →
      dgetD inner "result" (.pdict []) = .pdict innermost →
      ScriptExecutor.extract_value response = pyStr (dgetD innermost "value" (.pstr ""))) ∧
    (∀ es inner r2, response = .pdict es → dget es "result" = some (.pdict inner) →
      dgetD inner "result" (.pdict []) = r2 → r2.isDict = false →
      ScriptExecutor.extract_value response = pyStr (.pdict inner)) ∧
    (∀ es, response = .pdict es → dget es "result" = none →
      ScriptExecutor.extract_value response = "") := by
  refine ⟨?_, ?_, ?_, ?_, ?_, ?_⟩
  · intro h
    cases response <;> simp_all [ScriptExecutor.extract_value, PyVal.isDict]
  · intro v hv
    cases response with
    | pdict es =>
      rw [extract_value_pdict]
      rcases h1 : dget es "result" with _ | r
      · simp [nestedResultValue, h1] at hv
      · rcases r with s | n | b | _ | vs | inner <;> simp [nestedResultValue, h1] at hv
        rcases h2 : dget inner "result" with _ | r2
        · simp [h2] at hv
        · rcases r2 with s2 | n2 | b2 | _ | vs2 | innermost <;> simp [h2] at hv
          simp [dgetD, h1, h2, hv]
    | pstr s => simp [nestedResultValue] at hv
    | pint n => simp [nestedResultValue] at hv
    | pbool b => simp [nestedResultValue] at hv
    | pnone => simp [nestedResultValue] at hv
    | plist vs => simp [nestedResultValue] at hv
  · intro es r he h1 hnd
    subst he
    rw [extract_value_pdict]
    rcases r with s | n | b | _ | vs | inner <;> simp_all [PyVal.isDict, dgetD, h1]
  · intro es inner innermost he h1 h2
    subst he
    rw [extract_value_pdict]
    simp [dgetD, h1] at h2 ⊢
    simp [h2]
  · intro es inner r2 he h1 h2 hnd
    subst he
    rw [extract_value_pdict]
    simp [dgetD, h1]
    rcases r2 with s2 | n2 | b2 | _ | vs2 | im2 <;> simp_all [PyVal.isDict, dgetD, h1]
  · intro es he h1
    subst he
    rw [extract_value_pdict]
    simp [dgetD, h1]
    rfl

/-- Claim C3, witness for the amended theorem: the fully nested envelope
normalizes to the string at `result.result.value`. -/
theorem claim3_witness :
    ScriptExecutor.extract_value
      (.pdict [("result", .pdict [("result", .pdict [("value", .pstr "ok")])])]) = "ok" :=
  (claim3_amended _).2.1 (.pstr "ok") rfl

/-- Claim C7: a plain scalar, the single-level envelope and the double-level
envelope around the same non-mapping content all normalize to the same
string, namely the stringification of that content. -/
theorem claim7_envelope_shapes (v : PyVal) (hv : v.isDict = false) :
    ScriptExecutor.extract_value v = pyStr v ∧
    ScriptExecutor.extract_value (.pdict [("result", v)]) = pyStr v ∧
    ScriptExecutor.extract_value
      (.pdict [("result", .pdict [("result", .pdict [("value", v)])])]) = pyStr v := by
  refine ⟨?_, ?_, ?_⟩
  · cases v <;> simp_all [ScriptExecutor.extract_value, PyVal.isDict]
  · rw [extract_value_pdict]
    have h1 : dgetD [("result", v)] "result" (.pdict []) = v := rfl
    rw [h1]
    cases v <;> simp_all [PyVal.isDict]
  · rw [extract_value_pdict]
    rfl

/-- Claim C7, witness at the scalar `"hi"`. -/
theorem claim7_witness :
    (PyVal.pstr "hi").isDict = false ∧
    (ScriptExecutor.extract_value (.pstr "hi") = pyStr (.pstr "hi") ∧
     ScriptExecutor.extract_value (.pdict [("result", .pstr "hi")]) = pyStr (.pstr "hi") ∧
     ScriptExecutor.extract_value
       (.pdict [("result", .pdict [("result", .pdict [("value", .pstr "hi")])])]) =
         pyStr (.pstr "hi")) :=
  ⟨rfl, claim7_envelope_shapes (.pstr "hi") rfl⟩

/-- Dict-assignment semantics of the alias loop in `ActionRegistry.register`:
looking up any of the freshly inserted keys yields the new handler, and any
other key falls through to the previous table. -/
theorem find_foldl_cons (as : List String) (f : Handler) (base : Registry) (y : String) :
    ((as.foldl (fun r a => (a, f) :: r) base).find? (fun p => p.1 = y)).map (fun p => p.2) =
      if y ∈ as then some f
      else (base.find? (fun p => p.1 = y)).map (fun p => p.2) := by
  induction as generalizing base with
  | nil => simp
  | cons a as ih =>
    simp only [List.foldl_cons]
    rw [ih ((a, f) :: base)]
    by_cases hy : y ∈ as
    · simp [hy]
    · have hfind : (((a, f) :: base).find? (fun p => p.1 = y)).map (fun p => p.2) =
          if a = y then some f
          else (base.find? (fun p => p.1 = y)).map (fun p => p.2) := by
        by_cases ha : a = y <;> simp [List.find?, ha]
      rw [if_neg hy, hfind]
      by_cases ha : a = y
      · subst ha
        simp
      · rw [if_neg ha, if_neg]
        simp only [List.mem_cons]
        push_neg
        exact ⟨fun h => ha h.symm, hy⟩

/-- After `register(name, handler, aliases)`, lookup of the name or of any
alias yields the handler; other keys resolve as before. -/
theorem lookup_register (reg : Registry) (name : String) (aliases : List String)
    (f : Handler) (y : String) :
    ActionRegistry.lookup (ActionRegistry.register reg name aliases f) (.pstr y) =
      if y ∈ aliases ∨ y = name then some f
      else ActionRegistry.lookup reg (.pstr y) := by
  simp only [ActionRegistry.lookup, ActionRegistry.register]
  rw [find_foldl_cons]
  by_cases hy : y ∈ aliases
  · simp [hy]
  · by_cases hn : y = name
    · subst hn
      simp [hy, List.find?]
    · rw [if_neg hy, if_neg (by exact fun h => h.elim hy hn)]
      simp [List.find?, Ne.symm hn]

/-- Claim C8: executing through the registry via the primary name or via any
alias of a registration invokes the same handler on the same parameters, so
the two calls return identical results. -/
theorem claim8_alias_dispatch (reg : Registry) (name : String) (aliases : List String)
    (f : Handler) (alias_name : String) (ha : alias_name ∈ aliases) (kwargs : Dict) :
    ActionRegistry.execute (ActionRegistry.register reg name aliases f)
        (.pstr alias_name) kwargs = f kwargs ∧
    ActionRegistry.execute (ActionRegistry.register reg name aliases f)
        (.pstr name) kwargs = f kwargs := by
  unfold ActionRegistry.execute
  rw [lookup_register, lookup_register]
  simp [ha]

/-- Claim C8, witness: the `input` registration with its two aliases,
dispatched through the alias `fill` and through the primary name. -/
theorem claim8_witness :
    ("fill" ∈ ["type", "fill"]) ∧
    (ActionRegistry.execute (ActionRegistry.register [] "input" ["type", "fill"] okHandler)
        (.pstr "fill") [] = okHandler [] ∧
     ActionRegistry.execute (ActionRegistry.register [] "input" ["type", "fill"] okHandler)
        (.pstr "input") [] = okHandler []) :=
  ⟨by decide, claim8_alias_dispatch [] "input" ["type", "fill"] okHandler "fill" (by decide) []⟩

/-- The step loop never produces more results than there are workflow steps. -/
theorem runSteps_length_le (f : Nat → Dict → Dict) (k : Nat) (wf : List Dict) :
    (runSteps f k wf).length ≤ wf.length := by
  induction wf generalizing k with
  | nil => simp [runSteps]
  | cons s rest ih =>
    simp only [runSteps]
    split
    · simpa using ih (k + 1)
    · simp

/-- When the step loop stops early, the last produced result is a failure. -/
theorem runSteps_last_failed (f : Nat → Dict → Dict) (k : Nat) (wf : List Dict)
    (h : (runSteps f k wf).length < wf.length) :
    ∃ last, (runSteps f k wf).getLast? = some last ∧
      pyTruthy (dgetD last "success" (.pbool false)) = false := by
  induction wf generalizing k with
  | nil => simp [runSteps] at h
  | cons s rest ih =>
    by_cases hp : pyTruthy (dgetD (f k s) "success" (.pbool false))
    · simp only [runSteps, if_pos hp] at h ⊢
      have hlt : (runSteps f (k + 1) rest).length < rest.length := by
        simpa using h
      obtain ⟨last, hl, hf⟩ := ih (k + 1) hlt
      refine ⟨last, ?_, hf⟩
      rcases heq : runSteps f (k + 1) rest with _ | ⟨b, l⟩
      · rw [heq] at hl
        simp at hl
      · rw [heq] at hl
        rw [List.getLast?_cons_cons]
        exact hl
    · simp only [runSteps, if_neg hp] at h ⊢
      exact ⟨f k s, rfl, by simpa using hp⟩

/-- Claim C1: the aggregate `success` is true iff every produced step result
is truthy-successful; at most one result per workflow step is produced; and
a shortened run ends in a failed result. -/
theorem claim1_workflow_result_invariant (stepExec : Nat → Dict → Dict)
    (workflow : List Dict) :
    ((WorkflowProcessor.execute stepExec workflow).success = true ↔
      ∀ s ∈ (WorkflowProcessor.execute stepExec workflow).steps,
        pyTruthy (dgetD s "success" (.pbool false)) = true) ∧
    (WorkflowProcessor.execute stepExec workflow).steps.length ≤ workflow.length ∧
    ((WorkflowProcessor.execute stepExec workflow).steps.length < workflow.length →
      ∃ last, (WorkflowProcessor.execute stepExec workflow).steps.getLast? = some last ∧
        pyTruthy (dgetD last "success" (.pbool false)) = false) := by
  refine ⟨?_, runSteps_length_le _ _ _, fun h => runSteps_last_failed _ _ _ h⟩
  simp [WorkflowProcessor.execute, List.all_eq_true]

/-- Claim C1, witness: a two-step workflow whose first step fails produces a
truncated result list ending in the failure. -/
theorem claim1_witness :
    ∃ last, (WorkflowProcessor.execute stepExecFailAll wfTwoNav).steps.getLast? = some last ∧
      pyTruthy (dgetD last "success" (.pbool false)) = false :=
  (claim1_workflow_result_invariant stepExecFailAll wfTwoNav).2.2 (by decide)

/-- Every step-loop run on a non-empty workflow produces at least one result. -/
theorem runSteps_cons_length_pos (f : Nat → Dict → Dict) (k : Nat) (s : Dict)
    (rest : List Dict) : 0 < (runSteps f k (s :: rest)).length := by
  simp only [runSteps]
  split <;> simp

/-- If the steps before `i` succeed and step `i` fails, the step loop
produces exactly `i + 1` results and some produced result is a failure. -/
theorem runSteps_prefix_fail (f : Nat → Dict → Dict) (k : Nat) (wf : List Dict) (i : Nat)
    (hi : i < wf.length)
    (hpre : ∀ j (hj : j < i),
      pyTruthy (dgetD (f (k + j) (wf.get ⟨j, hj.trans hi⟩)) "success" (.pbool false)) = true)
    (hfail : pyTruthy (dgetD (f (k + i) (wf.get ⟨i, hi⟩)) "success" (.pbool false)) = false) :
    (runSteps f k wf).length = i + 1 ∧
    ∃ last ∈ runSteps f k wf, pyTruthy (dgetD last "success" (.pbool false)) = false := by
  induction wf generalizing k i with
  | nil => exact absurd hi (Nat.not_lt_zero i)
  | cons s rest ih =>
    cases i with
    | zero =>
      have h0 : pyTruthy (dgetD (f k s) "success" (.pbool false)) = false := by
        simpa using hfail
      simp [runSteps, h0]
    | succ n =>
      have h0 : pyTruthy (dgetD (f k s) "success" (.pbool false)) = true := by
        have := hpre 0 (Nat.succ_pos n)
        simpa using this
      have hn : n < rest.length := Nat.lt_of_succ_lt_succ hi
      have hpre' : ∀ j (hj : j < n),
          pyTruthy (dgetD (f (k + 1 + j) (rest.get ⟨j, hj.trans hn⟩)) "success"
            (.pbool false)) = true := by
        intro j hj
        have hx := hpre (j + 1) (Nat.succ_lt_succ hj)
        have heq : k + (j + 1) = k + 1 + j := by omega
        rw [heq] at hx
        exact hx
      have hfail' : pyTruthy (dgetD (f (k + 1 + n) (rest.get ⟨n, hn⟩)) "success"
          (.pbool false)) = false := by
        have heq : k + (n + 1) = k + 1 + n := by omega
        rw [heq] at hfail
        exact hfail
      obtain ⟨hlen, last, hmem, hfl⟩ := ih (k + 1) n hn hpre' hfail'
      refine ⟨?_, last, ?_, hfl⟩
      · simp [runSteps, h0, hlen]
      · simp only [runSteps, if_pos h0]
        exact List.mem_cons_of_mem _ hmem

/-- The step loop only consults the executor at the indices it actually
reaches: two executors agreeing on those indices run identically. -/
theorem runSteps_depends_only_on_prefix (f g : Nat → Dict → Dict) (k : Nat)
    (wf : List Dict)
    (h : ∀ j, k ≤ j → j < k + (runSteps f k wf).length → g j = f j) :
    runSteps g k wf = runSteps f k wf := by
  induction wf generalizing k with
  | nil => simp [runSteps]
  | cons s rest ih =>
    have hgk : g k = f k :=
      h k le_rfl (Nat.lt_add_of_pos_right (runSteps_cons_length_pos f k s rest))
    by_cases hp : pyTruthy (dgetD (f k s) "success" (.pbool false))
    · have hlen : (runSteps f k (s :: rest)).length =
          (runSteps f (k + 1) rest).length + 1 := by
        simp [runSteps, hp]
      have ih1 : runSteps g (k + 1) rest = runSteps f (k + 1) rest := by
        apply ih (k + 1)
        intro j hj1 hj2
        exact h j (Nat.le_of_succ_le hj1) (by omega)
      simp only [runSteps, hgk, if_pos hp, ih1]
    · simp only [runSteps, hgk, if_neg hp]

/-- Claim C2: when the steps before index `i` succeed and step `i` fails,
the aggregate holds exactly `i + 1` results, the aggregate success is false,
and the run's outcome is unchanged by any modification of the executor at
indices beyond `i` — i.e. no step (hence no action handler) past `i` is ever
invoked. -/
theorem claim2_failing_step_halts (stepExec : Nat → Dict → Dict) (workflow : List Dict)
    (i : Nat) (hi : i < workflow.length)
    (hpre : ∀ j (hj : j < i),
      pyTruthy (dgetD (stepExec j (workflow.get ⟨j, hj.trans hi⟩)) "success"
        (.pbool false)) = true)
    (hfail : pyTruthy (dgetD (stepExec i (workflow.get ⟨i, hi⟩)) "success"
      (.pbool false)) = false) :
    (WorkflowProcessor.execute stepExec workflow).steps.length = i + 1 ∧
    (WorkflowProcessor.execute stepExec workflow).success = false ∧
    ∀ g : Nat → Dict → Dict, (∀ j, j ≤ i → g j = stepExec j) →
      WorkflowProcessor.execute g workflow = WorkflowProcessor.execute stepExec workflow := by
  have main := runSteps_prefix_fail stepExec 0 workflow i hi
    (by intro j hj; simpa using hpre j hj) (by simpa using hfail)
  obtain ⟨hlen, last, hmem, hfl⟩ := main
  refine ⟨hlen, ?_, ?_⟩
  · show (runSteps stepExec 0 workflow).all
      (fun s => pyTruthy (dgetD s "success" (.pbool false))) = false
    rw [List.all_eq_false]
    exact ⟨last, hmem, by simp [hfl]⟩
  · intro g hg
    have hsame : runSteps g 0 workflow = runSteps stepExec 0 workflow := by
      apply runSteps_depends_only_on_prefix
      intro j hj1 hj2
      exact hg j (by omega)
    simp [WorkflowProcessor.execute, hsame]

/-- Claim C2, witness: a two-step workflow whose step 1 fails yields two
results and an unsuccessful aggregate. -/
theorem claim2_witness :
    (WorkflowProcessor.execute stepExecFailAt1 wfTwoNav).steps.length = 1 + 1 ∧
    (WorkflowProcessor.execute stepExecFailAt1 wfTwoNav).success = false :=
  ⟨(claim2_failing_step_halts stepExecFailAt1 wfTwoNav 1 (by decide)
      (fun j hj => by
        have hj0 : j = 0 := by omega
        subst hj0
        show pyTruthy (dgetD (stepExecFailAt1 0 (wfTwoNav.get ⟨0, by decide⟩)) "success"
          (.pbool false)) = true
        decide)
      (by decide)).1,
   (claim2_failing_step_halts stepExecFailAt1 wfTwoNav 1 (by decide)
      (fun j hj => by
        have hj0 : j = 0 := by omega
        subst hj0
        show pyTruthy (dgetD (stepExecFailAt1 0 (wfTwoNav.get ⟨0, by decide⟩)) "success"
          (.pbool false)) = true
        decide)
      (by decide)).2.1⟩

/-- Claim C9: the process exit status is 0 exactly when setup succeeded and
the aggregate result's success is true; it is 1 in every other case,
including a raised setup failure (malformed workflow JSON or an output
directory that cannot be created). -/
theorem claim9_exit_status (setup : Except PyExc (List Dict))
    (stepExec : Nat → Dict → Dict) :
    (mainExitCode setup stepExec = 0 ↔
      ∃ workflow, setup = .ok workflow ∧
        (WorkflowProcessor.execute stepExec workflow).success = true) ∧
    (mainExitCode setup stepExec = 0 ∨ mainExitCode setup stepExec = 1) ∧
    (∀ e, setup = .error e → mainExitCode setup stepExec = 1) := by
  rcases setup with e | wf
  · simp [mainExitCode]
  · refine ⟨?_, ?_, ?_⟩
    · simp only [mainExitCode]
      split
      · simp_all
      · simp_all
    · simp only [mainExitCode]
      split <;> simp
    · intro e he
      simp at he

/-- Claim C9, witness: a JSON-parse failure exits with status 1. -/
theorem claim9_witness :
    mainExitCode (.error (.otherError "Expecting value: line 1 column 1")) stepExecOkAll = 1 :=
  (claim9_exit_status (.error (.otherError "Expecting value: line 1 column 1")) stepExecOkAll).2.2
    (.otherError "Expecting value: line 1 column 1") rfl

/-- If some reachable poll iteration returns `True`, the login loop returns
`true` (whether at that iteration or an earlier one). -/
theorem manualLoginLoop_true_of_iter (obs : Nat → LoginObs) (initial_url : String)
    (check_element : PyVal) (timeout : Nat) :
    ∀ fuel k j, k ≤ j → 2 * j < timeout → j - k < fuel →
      manualLoginIter (obs j) initial_url check_element = .ok true →
      manualLoginLoop obs initial_url check_element timeout k fuel = true := by
  intro fuel
  induction fuel with
  | zero => omega
  | succ fuel ih =>
    intro k j hkj hj hfuel hiter
    have hk : 2 * k < timeout := by omega
    rw [manualLoginLoop, if_pos hk]
    by_cases hkeq : k = j
    · subst hkeq
      rw [hiter]
    · have h1 : k + 1 ≤ j := by omega
      rcases hit : manualLoginIter (obs k) initial_url check_element with e | b
      · exact ih (k + 1) j h1 hj (by omega) hiter
      · cases b
        · exact ih (k + 1) j h1 hj (by omega) hiter
        · rfl

/-- If no iteration inside the timeout window ever returns `True`, the loop
falls off its guard and returns `false`. -/
theorem manualLoginLoop_false_of_no_iter (obs : Nat → LoginObs) (initial_url : String)
    (check_element : PyVal) (timeout : Nat)
    (h : ∀ j, 2 * j < timeout →
      manualLoginIter (obs j) initial_url check_element ≠ .ok true) :
    ∀ fuel k, manualLoginLoop obs initial_url check_element timeout k fuel = false := by
  intro fuel
  induction fuel with
  | zero => intro k; rfl
  | succ fuel ih =>
    intro k
    rw [manualLoginLoop]
    split
    · rcases hit : manualLoginIter (obs k) initial_url check_element with e | b
      · exact ih (k + 1)
      · cases b
        · exact ih (k + 1)
        · exact absurd hit (h k (by assumption))
    · rfl

/-- A poll iteration that reads a URL different from the initial one and not
matching any login-path marker returns `True` immediately. -/
theorem manualLoginIter_url_change (o : LoginObs) (initial_url : String)
    (check_element : PyVal) (curr : String) (hu : o.url = .ok curr)
    (hne : curr ≠ initial_url)
    (hnl : ∀ ind ∈ loginIndicators, pyIn ind (pyLower curr) = false) :
    manualLoginIter o initial_url check_element = .ok true := by
  have h1 : (curr != initial_url) = true := bne_iff_ne.mpr hne
  have h2 : (loginIndicators.any fun ind => pyIn ind (pyLower curr)) = false := by
    rw [List.any_eq_false]
    intro x hx
    simp [hnl x hx]
  simp [manualLoginIter, hu, h1, h2, Except.instMonad, Except.bind, Bind.bind,
    Pure.pure, Except.pure]

/-- A poll iteration that reads a URL and finds the truthy check selector
present returns `True` immediately. -/
theorem manualLoginIter_elem (o : LoginObs) (initial_url : String)
    (check_element : PyVal) (curr : String) (hu : o.url = .ok curr)
    (hcheck : pyTruthy check_element = true)
    (helem : o.elemPresent check_element = .ok true) :
    manualLoginIter o initial_url check_element = .ok true := by
  by_cases h1 : (curr != initial_url) = true
  · by_cases h2 : (loginIndicators.any fun ind => pyIn ind (pyLower curr)) = true
    · simp [manualLoginIter, hu, h1, h2, hcheck, helem, Except.instMonad, Except.bind,
        Bind.bind, Pure.pure, Except.pure]
    · simp [manualLoginIter, hu, h1, h2, hcheck, helem, Except.instMonad, Except.bind,
        Bind.bind, Pure.pure, Except.pure]
  · simp [manualLoginIter, hu, h1, hcheck, helem, Except.instMonad, Except.bind,
      Bind.bind, Pure.pure, Except.pure]

/-- A poll iteration that reads a URL, whose element probe (if consulted)
does not raise, and whose page text contains a post-login keyword returns
`True` immediately. -/
theorem manualLoginIter_content (o : LoginObs) (initial_url : String)
    (check_element : PyVal) (curr text : String) (hu : o.url = .ok curr)
    (hsafe : pyTruthy check_element = true → ∃ b, o.elemPresent check_element = .ok b)
    (htext : o.pageText = .ok text)
    (hind : (postLoginIndicators.any fun ind => pyIn ind (pyLower text)) = true) :
    manualLoginIter o initial_url check_element = .ok true := by
  by_cases hc : pyTruthy check_element = true
  · obtain ⟨b, hb⟩ := hsafe hc
    cases b <;>
    · by_cases h1 : (curr != initial_url) = true
      · by_cases h2 : (loginIndicators.any fun ind => pyIn ind (pyLower curr)) = true
        · simp [manualLoginIter, hu, h1, h2, hc, hb, htext, hind, Except.instMonad,
            Except.bind, Bind.bind, Pure.pure, Except.pure]
        · simp [manualLoginIter, hu, h1, h2, hc, hb, htext, hind, Except.instMonad,
            Except.bind, Bind.bind, Pure.pure, Except.pure]
      · simp [manualLoginIter, hu, h1, hc, hb, htext, hind, Except.instMonad,
          Except.bind, Bind.bind, Pure.pure, Except.pure]
  · by_cases h1 : (curr != initial_url) = true
    · by_cases h2 : (loginIndicators.any fun ind => pyIn ind (pyLower curr)) = true
      · simp [manualLoginIter, hu, h1, h2, hc, htext, hind, Except.instMonad,
          Except.bind, Bind.bind, Pure.pure, Except.pure]
      · simp [manualLoginIter, hu, h1, h2, hc, htext, hind, Except.instMonad,
          Except.bind, Bind.bind, Pure.pure, Except.pure]
    · simp [manualLoginIter, hu, h1, hc, htext, hind, Except.instMonad,
        Except.bind, Bind.bind, Pure.pure, Except.pure]

/-- Claim C5 as amended: the generic waiter returns `true` within one poll
interval once a poll observes any of its three success conditions — the URL
changed off a login path, the caller-supplied check selector present, or a
post-login keyword in the visible page text — and returns `false` at the
timeout boundary only if no poll inside the window observes any of the three
(the original claim omitted the page-text condition). -/
theorem claim5_amended (obs : Nat → LoginObs) (initial_url : String)
    (timeout : Nat) (check_element : PyVal) :
    (∀ k, 2 * k < timeout →
      manualLoginIter (obs k) initial_url check_element = .ok true →
      wait_for_manual_login obs initial_url timeout check_element = true) ∧
    ((∀ k, 2 * k < timeout →
      manualLoginIter (obs k) initial_url check_element ≠ .ok true) →
      wait_for_manual_login obs initial_url timeout check_element = false) ∧
    (∀ o curr, o.url = .ok curr → curr ≠ initial_url →
      (∀ ind ∈ loginIndicators, pyIn ind (pyLower curr) = false) →
      manualLoginIter o initial_url check_element = .ok true) ∧
    (∀ o curr, o.url = .ok curr → pyTruthy check_element = true →
      o.elemPresent check_element = .ok true →
      manualLoginIter o initial_url check_element = .ok true) ∧
    (∀ o curr text, o.url = .ok curr →
      (pyTruthy check_element = true → ∃ b, o.elemPresent check_element = .ok b) →
      o.pageText = .ok text →
      (postLoginIndicators.any fun ind => pyIn ind (pyLower text)) = true →
      manualLoginIter o initial_url check_element = .ok true) := by
  refine ⟨?_, ?_, ?_, ?_, ?_⟩
  · intro k hk hiter
    exact manualLoginLoop_true_of_iter obs initial_url check_element timeout
      timeout 0 k (Nat.zero_le k) hk (by omega) hiter
  · intro h
    exact manualLoginLoop_false_of_no_iter obs initial_url check_element timeout h timeout 0
  · intro o curr hu hne hnl
    exact manualLoginIter_url_change o initial_url check_element curr hu hne hnl
  · intro o curr hu hc he
    exact manualLoginIter_elem o initial_url check_element curr hu hc he
  · intro o curr text hu hs ht hi
    exact manualLoginIter_content o initial_url check_element curr text hu hs ht hi

/-- Claim C5, counterexample: with the URL never changing and the check
selector never present (and no selector configured at all), the waiter still
returns `true`, because the page text contains the post-login keyword
`logout`; the claim as stated demands `false` at the timeout boundary. -/
theorem claim5_counterexample :
    (∀ k, (obsLogout k).url = .ok "https://example.com/login") ∧
    (∀ k s, (obsLogout k).elemPresent s = .ok false) ∧
    pyTruthy PyVal.pnone = false ∧
    wait_for_manual_login obsLogout "https://example.com/login" 4 .pnone = true := by
  refine ⟨fun k => rfl, fun k s => rfl, rfl, ?_⟩
  decide

/-- Claim C5, witness for the amended theorem: when no success condition is
ever observed, the waiter times out with `false`. -/
theorem claim5_witness :
    wait_for_manual_login obsNever "https://example.com/login" 4 .pnone = false :=
  (claim5_amended obsNever "https://example.com/login" 4 .pnone).2.1 (fun k hk hit => by
    have hfix : manualLoginIter (obsNever k) "https://example.com/login" .pnone = .ok false := rfl
    rw [hfix] at hit
    simp at hit)

/-- Claim C10: two parameter maps that agree on every key other than
`input_selector` and `selector` make the fill-field action locate the same
element (it probes only the fixed `ProseMirror` class and the fixed
`prompt-textarea` id) and return the same result — the caller-supplied
selector never influences which element is used or whether the action
succeeds. -/
theorem claim10_selector_noninterference (env : InputEnv) (k1 k2 : Dict)
    (hdiff : ∀ key : String, key ≠ "input_selector" → key ≠ "selector" →
      dget k1 key = dget k2 key) :
    locatedInputField env k1 = locatedInputField env k2 ∧
    input_text env k1 = input_text env k2 := by
  have htext : (dget k1 "input_text").getD (dgetD k1 "text" (.pstr "")) =
      (dget k2 "input_text").getD (dgetD k2 "text" (.pstr "")) := by
    rw [hdiff "input_text" (by decide) (by decide), dgetD,
      hdiff "text" (by decide) (by decide), dgetD]
  have hclear : (dget k1 "clear_first").getD (.pbool true) =
      (dget k2 "clear_first").getD (.pbool true) := by
    rw [hdiff "clear_first" (by decide) (by decide)]
  refine ⟨rfl, ?_⟩
  simp only [input_text, htext, hclear, locatedInputField]

/-- Claim C10, witness: the same text routed once through `input_selector`
and once through a different `selector` produces identical behavior. -/
theorem claim10_witness :
    (∀ key : String, key ≠ "input_selector" → key ≠ "selector" →
      dget kwargsSelA key = dget kwargsSelB key) ∧
    (locatedInputField pureInputEnv kwargsSelA = locatedInputField pureInputEnv kwargsSelB ∧
     input_text pureInputEnv kwargsSelA = input_text pureInputEnv kwargsSelB) := by
  have h : ∀ key : String, key ≠ "input_selector" → key ≠ "selector" →
      dget kwargsSelA key = dget kwargsSelB key := by
    intro key h1 h2
    by_cases h3 : key = "input_text"
    · subst h3
      rfl
    · simp [kwargsSelA, kwargsSelB, dget, List.find?, Ne.symm h1, Ne.symm h2, Ne.symm h3]
  exact ⟨h, claim10_selector_noninterference pureInputEnv kwargsSelA kwargsSelB h⟩

/-- Lookup of a name outside the nine names registered by
scripts/browser/actions/common.py yields no handler. -/
theorem commonRegistry_lookup_none (hI hC hW hD hE : Handler) (t : String)
    (h : t ∉ ["input", "type", "fill", "click", "press", "wait_response",
      "download", "extract", "scrape"]) :
    ActionRegistry.lookup (commonRegistry hI hC hW hD hE) (.pstr t) = none := by
  simp only [List.mem_cons, List.mem_singleton, not_or] at h
  obtain ⟨h1, h2, h3, h4, h5, h6, h7, h8, h9⟩ := h
  simp only [commonRegistry]
  rw [lookup_register, lookup_register, lookup_register, lookup_register, lookup_register]
  simp [ActionRegistry.lookup, List.find?, h1, h2, h3, h4, h5, h6, h7, h8, h9]

/-- Claim C4: the soft-success policy is unreachable in the program, so the
claimed behavior does not hold of the code.  The registry's `execute`
declares `kwargs` as a plain positional parameter while the processor calls
it as `ActionRegistry.execute(action_type, tab, **action_params)` with
`output_dir` always among the unpacked keys, so dispatching the spec's
`noop_future_feature` step raises `TypeError` at argument binding; that
escapes `except ValueError` and is caught by the step-boundary
`except Exception`, failing the step with the TypeError message (first two
conjuncts).  The third conjunct evaluates the call as the processor makes
it; the fourth shows the registry body itself, called with a plain
parameter dict as its docstring intends, would indeed raise the `ValueError`
naming the requested type — the claim describes that intended behavior, and
the missing `**` on the `kwargs` parameter is the slip that defeats it. -/
theorem claim4_unknown_type_fails :
    pyTruthy (dgetD (WorkflowProcessor.execute_step
      (commonRegistry okHandler okHandler okHandler okHandler okHandler)
      pureStepEnv .pnone 0 [("type", PyVal.pstr "noop_future_feature")])
      "success" (.pbool false)) = false ∧
    dget (WorkflowProcessor.execute_step
      (commonRegistry okHandler okHandler okHandler okHandler okHandler)
      pureStepEnv .pnone 0 [("type", PyVal.pstr "noop_future_feature")]) "error" =
      some (.pstr "TypeError: execute() got an unexpected keyword argument \x27output_dir\x27") ∧
    ActionRegistry.executeUnpacked
      (commonRegistry okHandler okHandler okHandler okHandler okHandler)
      (.pstr "noop_future_feature") [("output_dir", .pnone)] =
      .error (.otherError
        "TypeError: execute() got an unexpected keyword argument \x27output_dir\x27") ∧
    ActionRegistry.execute
      (commonRegistry okHandler okHandler okHandler okHandler okHandler)
      (.pstr "noop_future_feature") [("output_dir", .pnone)] =
      .error (.valueError ("Unknown action: " ++ "noop_future_feature")) := by
  refine ⟨?_, ?_, ?_, ?_⟩
  · rfl
  · rfl
  · rfl
  · rfl

/-- Every produced step result other than the last one is successful: a
failing step halts the loop immediately. -/
theorem runSteps_prefix_success (f : Nat → Dict → Dict) (k : Nat) (wf : List Dict) :
    ∀ j d, (runSteps f k wf).get? j = some d → j + 1 < (runSteps f k wf).length →
      pyTruthy (dgetD d "success" (.pbool false)) = true := by
  induction wf generalizing k with
  | nil =>
    intro j d hd hj
    simp [runSteps] at hj
  | cons s rest ih =>
    intro j d hd hj
    by_cases hp : pyTruthy (dgetD (f k s) "success" (.pbool false))
    · simp only [runSteps, if_pos hp] at hd hj
      cases j with
      | zero =>
        simp only [List.get?_cons_zero, Option.some.injEq] at hd
        rw [← hd]
        exact hp
      | succ n =>
        simp only [List.get?_cons_succ] at hd
        simp only [List.length_cons] at hj
        exact ih (k + 1) n d hd (by omega)
    · simp only [runSteps, if_neg hp, List.length_singleton] at hj
      omega

/-- Claim C6: `execute_step` is total (it returns a result dict for every
environment outcome, by its type); whenever the step body raises, the
returned result carries the exception's message as its `error` string with a
falsy `success`; and inside the run loop every non-final produced result is
successful, i.e. a failed step halts the run. -/
theorem claim6_exception_containment (reg : Registry) (env : StepEnv)
    (output_dir : PyVal) (idx : Nat) (step : Dict) (e : PyExc)
    (herr : WorkflowProcessor.execute_step_body reg env output_dir step
      (stepResultBase idx step) = .error e) :
    (dget (WorkflowProcessor.execute_step reg env output_dir idx step) "error" =
        some (.pstr e.msg) ∧
     pyTruthy (dgetD (WorkflowProcessor.execute_step reg env output_dir idx step)
        "success" (.pbool false)) = false) ∧
    ∀ (stepExec : Nat → Dict → Dict) (wf : List Dict) (j : Nat) (d : Dict),
      (runSteps stepExec 0 wf).get? j = some d →
      j + 1 < (runSteps stepExec 0 wf).length →
      pyTruthy (dgetD d "success" (.pbool false)) = true := by
  refine ⟨⟨?_, ?_⟩, fun stepExec wf j d hd hj => runSteps_prefix_success stepExec 0 wf j d hd hj⟩
  · simp only [WorkflowProcessor.execute_step]
    rw [herr]
    simp [dget, dinsert, List.find?]
  · simp only [WorkflowProcessor.execute_step]
    rw [herr]
    simp [dgetD, dget, dinsert, List.find?, stepResultBase, pyTruthy]

/-- Claim C6, witness: a navigation that raises is converted into a failed
step result carrying the exception message. -/
theorem claim6_witness :
    dget (WorkflowProcessor.execute_step [] raisingStepEnv .pnone 0
      [("url", PyVal.pstr "https://example.com")]) "error" = some (.pstr "boom") ∧
    pyTruthy (dgetD (WorkflowProcessor.execute_step [] raisingStepEnv .pnone 0
      [("url", PyVal.pstr "https://example.com")]) "success" (.pbool false)) = false :=
  (claim6_exception_containment [] raisingStepEnv .pnone 0
    [("url", PyVal.pstr "https://example.com")] (.otherError "boom") rfl).1
